import Mathlib

/-!
Verification of the rust-ppapi helper layer: the tagged-Variant
encode/decode functions and the completion-callback adapter defined in
`src/src/libhelper/helper.cpp` and `src/src/helper.cpp`, plus the
`getentropy` routine of `src/deps/libressl-2.0.0/crypto/compat/getentropy_nacl.c`.

Machine integers are embedded as mathematical integers together with the
explicit two's-complement reduction `% 2^w`; a C `double` is embedded as
its 64-bit bit pattern, since the code only stores and reloads those 64
bits through the union without any arithmetic on them.
-/

/-- Modelled from the spec: the `PP_VarType` enumeration of `ppapi/c/pp_var.h`
(the header is not in src/). The spec fixes the closed set of Kind tags:
Undefined, Null, Bool, Int32, Double, String, Object, Array, Dictionary,
ArrayBuffer. -/
inductive PP_VarType where
  | PP_VARTYPE_UNDEFINED
  | PP_VARTYPE_NULL
  | PP_VARTYPE_BOOL
  | PP_VARTYPE_INT32
  | PP_VARTYPE_DOUBLE
  | PP_VARTYPE_STRING
  | PP_VARTYPE_OBJECT
  | PP_VARTYPE_ARRAY
  | PP_VARTYPE_DICTIONARY
  | PP_VARTYPE_ARRAY_BUFFER
deriving DecidableEq

/-- Modelled from the spec: the untagged payload union `PP_VarValue` of
`ppapi/c/pp_var.h` (not in src/): `union { bool; int32; float64; u64 }`,
all arms overlaid at offset 0. It is embedded as the 64-bit word the
union occupies; each arm accessor reinterprets these bits. -/
structure PP_VarValue where
  bits : Nat
deriving DecidableEq

/-- Two's-complement reading of the low 32 bits of a word as a signed
32-bit integer (a C `int32_t` load). -/
def sint32OfBits (b : Nat) : Int :=
  let r : Nat := b % 2 ^ 32
  if r < 2 ^ 31 then (r : Int) else (r : Int) - 2 ^ 32

/-- Two's-complement reading of a 64-bit word as a signed 64-bit integer
(a C `int64_t` load). -/
def sint64OfBits (b : Nat) : Int :=
  let r : Nat := b % 2 ^ 64
  if r < 2 ^ 63 then (r : Int) else (r : Int) - 2 ^ 64

/-- Two's-complement storing of a signed integer into 32 bits
(a C `int32_t` store). -/
def bitsOfSint32 (n : Int) : Nat := (n % 2 ^ 32).toNat

/-- Two's-complement storing of a signed integer into 64 bits
(a C `int64_t` store). -/
def bitsOfSint64 (n : Int) : Nat := (n % 2 ^ 64).toNat

/-- Reading the `as_bool` arm: a `PP_Bool` (a 32-bit enum) load from the
low 32 bits of the union. -/
def PP_VarValue.as_bool (v : PP_VarValue) : Int := sint32OfBits v.bits

/-- Reading the `as_int` arm: an `int32_t` load from the low 32 bits. -/
def PP_VarValue.as_int (v : PP_VarValue) : Int := sint32OfBits v.bits

/-- Reading the `as_double` arm: the 64-bit pattern of the stored double. -/
def PP_VarValue.as_double (v : PP_VarValue) : Nat := v.bits % 2 ^ 64

/-- Reading the `as_id` arm: an `int64_t` load of the whole word. -/
def PP_VarValue.as_id (v : PP_VarValue) : Int := sint64OfBits v.bits

/-- Modelled from the spec: the boundary struct `PP_Var` of
`ppapi/c/pp_var.h` (not in src/); spec section 6 fixes the layout:
a 32-bit Kind tag, a 32-bit reserved field (named `padding` in the
header, always 0), and the payload union. -/
structure PP_Var where
  type : PP_VarType
  padding : Int
  value : PP_VarValue
deriving DecidableEq

/-- Modelled from the spec: `PP_MakeUndefined` of `pp_var.h` (not in src/):
a singleton Variant with Kind = Undefined, zero reserved field, zeroed
payload. -/
def PP_MakeUndefined : PP_Var :=
  ⟨PP_VarType.PP_VARTYPE_UNDEFINED, 0, ⟨0⟩⟩

/-- Modelled from the spec: `PP_MakeNull` of `pp_var.h` (not in src/). -/
def PP_MakeNull : PP_Var :=
  ⟨PP_VarType.PP_VARTYPE_NULL, 0, ⟨0⟩⟩

/-- Modelled from the spec: `PP_MakeBool` of `pp_var.h` (not in src/):
Kind = Bool, zero reserved field, the `PP_Bool` argument stored into the
`as_bool` arm of the zero-initialised union. -/
def PP_MakeBool (b : Int) : PP_Var :=
  ⟨PP_VarType.PP_VARTYPE_BOOL, 0, ⟨bitsOfSint32 b⟩⟩

/-- Modelled from the spec: `PP_MakeInt32` of `pp_var.h` (not in src/):
Kind = Int32, zero reserved field, the `int32_t` argument stored into
the `as_int` arm of the zero-initialised union. -/
def PP_MakeInt32 (n : Int) : PP_Var :=
  ⟨PP_VarType.PP_VARTYPE_INT32, 0, ⟨bitsOfSint32 n⟩⟩

/-- Modelled from the spec: `PP_MakeDouble` of `pp_var.h` (not in src/):
Kind = Double, zero reserved field, the double (given by its 64-bit
pattern) stored into the `as_double` arm. -/
def PP_MakeDouble (dbits : Nat) : PP_Var :=
  ⟨PP_VarType.PP_VARTYPE_DOUBLE, 0, ⟨dbits % 2 ^ 64⟩⟩

/-- A `PP_CompletionCallback_Func`: an opaque function reference, never
called directly by this layer, so embedded as an uninterpreted
identifier. -/
structure PP_CompletionCallback_Func where
  ref : Nat
deriving DecidableEq

/-- The `PP_CompletionCallback` struct: a function reference paired with
the opaque `void*` context (embedded as an uninterpreted address). -/
structure PP_CompletionCallback where
  func : PP_CompletionCallback_Func
  user_data : Nat
deriving DecidableEq

/-- One observable invocation event: some function reference called with
a context and a result code. -/
structure Invocation where
  func : PP_CompletionCallback_Func
  user_data : Nat
  code : Int
deriving DecidableEq

/-- Modelled from the spec: `PP_MakeCompletionCallback` of
`ppapi/c/pp_completion_callback.h` (not in src/): binds the function
reference and context into a callback value; no invocation occurs at
construction. The second component is the list of invocation events the
operation performs. -/
def PP_MakeCompletionCallback (f : PP_CompletionCallback_Func) (user_data : Nat) :
    PP_CompletionCallback × List Invocation :=
  (⟨f, user_data⟩, [])

/-- Modelled from the spec: `PP_RunCompletionCallback` of
`ppapi/c/pp_completion_callback.h` (not in src/): triggers execution of
`cc->func(cc->user_data, result)`. The result is the list of invocation
events the operation performs. -/
def PP_RunCompletionCallback (cc : PP_CompletionCallback) (result : Int) :
    List Invocation :=
  [⟨cc.func, cc.user_data, result⟩]

/-- `make_completion_callback` from src/src/libhelper/helper.cpp. -/
def make_completion_callback (func : PP_CompletionCallback_Func) (user_data : Nat) :
    PP_CompletionCallback × List Invocation :=
  PP_MakeCompletionCallback func user_data

/-- `run_completion_callback` from src/src/libhelper/helper.cpp. -/
def run_completion_callback (func : PP_CompletionCallback) (code : Int) :
    List Invocation :=
  PP_RunCompletionCallback func code

/-- `make_undefined_var` from src/src/libhelper/helper.cpp. -/
def make_undefined_var : PP_Var := PP_MakeUndefined

/-- `make_null_var` from src/src/libhelper/helper.cpp. -/
def make_null_var : PP_Var := PP_MakeNull

/-- `bool_to_var` from src/src/libhelper/helper.cpp:
`PP_MakeBool(static_cast<PP_Bool>(value))`; the C++ bool-to-enum cast
sends true to 1 and false to 0. -/
def bool_to_var (value : Bool) : PP_Var :=
  PP_MakeBool (if value then 1 else 0)

/-- `bool_from_var` from src/src/libhelper/helper.cpp:
`v.value.as_bool`, converted to a C++ `bool` (nonzero means true). -/
def bool_from_var (v : PP_Var) : Bool :=
  decide (v.value.as_bool ≠ 0)

/-- `i32_to_var` from src/src/libhelper/helper.cpp. -/
def i32_to_var (value : Int) : PP_Var := PP_MakeInt32 value

/-- `i32_from_var` from src/src/libhelper/helper.cpp: `v.value.as_int`. -/
def i32_from_var (v : PP_Var) : Int := v.value.as_int

/-- `f64_to_var` from src/src/libhelper/helper.cpp; the double argument
is given by its 64-bit pattern. -/
def f64_to_var (value : Nat) : PP_Var := PP_MakeDouble value

/-- `f64_from_var` from src/src/libhelper/helper.cpp: `v.value.as_double`. -/
def f64_from_var (v : PP_Var) : Nat := v.value.as_double

/-- `string_id_to_var` from src/src/libhelper/helper.cpp: writes the
`as_id` arm of a fresh union, then builds `{ PP_VARTYPE_STRING, 0, vv }`. -/
def string_id_to_var (id : Int) : PP_Var :=
  ⟨PP_VarType.PP_VARTYPE_STRING, 0, ⟨bitsOfSint64 id⟩⟩

/-- `object_id_to_var` from src/src/libhelper/helper.cpp. -/
def object_id_to_var (id : Int) : PP_Var :=
  ⟨PP_VarType.PP_VARTYPE_OBJECT, 0, ⟨bitsOfSint64 id⟩⟩

/-- `array_id_to_var` from src/src/libhelper/helper.cpp. -/
def array_id_to_var (id : Int) : PP_Var :=
  ⟨PP_VarType.PP_VARTYPE_ARRAY, 0, ⟨bitsOfSint64 id⟩⟩

/-- `dictionary_id_to_var` from src/src/libhelper/helper.cpp. -/
def dictionary_id_to_var (id : Int) : PP_Var :=
  ⟨PP_VarType.PP_VARTYPE_DICTIONARY, 0, ⟨bitsOfSint64 id⟩⟩

/-- `array_buffer_id_to_var` from src/src/libhelper/helper.cpp. -/
def array_buffer_id_to_var (id : Int) : PP_Var :=
  ⟨PP_VarType.PP_VARTYPE_ARRAY_BUFFER, 0, ⟨bitsOfSint64 id⟩⟩

/-- `id_from_var` from src/src/libhelper/helper.cpp: `v.value.as_id`. -/
def id_from_var (v : PP_Var) : Int := v.value.as_id

namespace srchelper

/-- `make_completion_callback` from src/src/helper.cpp (the second
translation unit; textually the same body). -/
def make_completion_callback (func : PP_CompletionCallback_Func) (user_data : Nat) :
    PP_CompletionCallback × List Invocation :=
  PP_MakeCompletionCallback func user_data

/-- `run_completion_callback` from src/src/helper.cpp. -/
def run_completion_callback (func : PP_CompletionCallback) (code : Int) :
    List Invocation :=
  PP_RunCompletionCallback func code

/-- `make_undefined_var` from src/src/helper.cpp. -/
def make_undefined_var : PP_Var := PP_MakeUndefined

/-- `make_null_var` from src/src/helper.cpp. -/
def make_null_var : PP_Var := PP_MakeNull

/-- `bool_to_var` from src/src/helper.cpp. -/
def bool_to_var (value : Bool) : PP_Var :=
  PP_MakeBool (if value then 1 else 0)

/-- `bool_from_var` from src/src/helper.cpp. -/
def bool_from_var (v : PP_Var) : Bool :=
  decide (v.value.as_bool ≠ 0)

/-- `i32_to_var` from src/src/helper.cpp. -/
def i32_to_var (value : Int) : PP_Var := PP_MakeInt32 value

/-- `i32_from_var` from src/src/helper.cpp. -/
def i32_from_var (v : PP_Var) : Int := v.value.as_int

/-- `f64_to_var` from src/src/helper.cpp. -/
def f64_to_var (value : Nat) : PP_Var := PP_MakeDouble value

/-- `f64_from_var` from src/src/helper.cpp. -/
def f64_from_var (v : PP_Var) : Nat := v.value.as_double

/-- `string_id_to_var` from src/src/helper.cpp. -/
def string_id_to_var (id : Int) : PP_Var :=
  ⟨PP_VarType.PP_VARTYPE_STRING, 0, ⟨bitsOfSint64 id⟩⟩

/-- `object_id_to_var` from src/src/helper.cpp. -/
def object_id_to_var (id : Int) : PP_Var :=
  ⟨PP_VarType.PP_VARTYPE_OBJECT, 0, ⟨bitsOfSint64 id⟩⟩

/-- `array_id_to_var` from src/src/helper.cpp. -/
def array_id_to_var (id : Int) : PP_Var :=
  ⟨PP_VarType.PP_VARTYPE_ARRAY, 0, ⟨bitsOfSint64 id⟩⟩

/-- `dictionary_id_to_var` from src/src/helper.cpp. -/
def dictionary_id_to_var (id : Int) : PP_Var :=
  ⟨PP_VarType.PP_VARTYPE_DICTIONARY, 0, ⟨bitsOfSint64 id⟩⟩

/-- `array_buffer_id_to_var` from src/src/helper.cpp. -/
def array_buffer_id_to_var (id : Int) : PP_Var :=
  ⟨PP_VarType.PP_VARTYPE_ARRAY_BUFFER, 0, ⟨bitsOfSint64 id⟩⟩

/-- `id_from_var` from src/src/helper.cpp. -/
def id_from_var (v : PP_Var) : Int := v.value.as_id

end srchelper

/-- The three standard C streams a `FILE*` accessor can return. -/
inductive CFileStream where
  | standardIn
  | standardOut
  | standardErr
deriving DecidableEq

/-- `stdout_file` from src/src/helper.cpp: its body is `return stdin;`. -/
def stdout_file : CFileStream := CFileStream.standardIn

/-- `stderr_file` from src/src/helper.cpp: its body is `return stderr;`. -/
def stderr_file : CFileStream := CFileStream.standardErr

/-- The errno value `EINTR` (interrupted system call). -/
def EINTRv : Int := 4

/-- The errno value `E IO` (input/output error), written to errno on every
failing return of `getentropy`. -/
def EIOv : Int := 5

/-- The errno value `EAGAIN` (resource temporarily unavailable). -/
def EAGAINv : Int := 11

/-- Outcome of one `open("/dev/urandom", ...)` attempt: either it fails
returning -1 with the given errno, or it yields a file descriptor. -/
inductive OpenResult where
  | failure (errno : Int)
  | success
deriving DecidableEq

/-- Outcome of one `read(fd, buf + i, wanted)` call: either it fails
returning -1 with the given errno, or it returns the given bytes (the
return value is their count; `read` never delivers more than asked). -/
inductive ReadResult where
  | failure (errno : Int)
  | success (data : List Nat)
deriving DecidableEq

/-- The POSIX device environment `getentropy` interacts with: the
successive outcomes of its `open` attempts, whether `fstat` succeeds
with the node a character-special device (`S_ISCHR`), and the
successive outcomes of its `read` calls. -/
structure Env where
  opens : List OpenResult
  devSane : Bool
  reads : List ReadResult
deriving DecidableEq

/-- `gotdata` from getentropy_nacl.c: ORs every byte of the buffer into
`any_set`; returns -1 when `any_set` stayed zero (all bytes zero),
0 otherwise. -/
def gotdata (buf : List Nat) : Int :=
  let any_set : Nat := buf.foldl (fun a b => a ||| b % 256) 0
  if any_set = 0 then -1 else 0

/-- Result of the `open` retry loop at label `start`: either some attempt
yielded a descriptor, or an attempt failed with an errno other than
EINTR (the code then jumps to `nodevrandom`). -/
inductive OpenOut where
  | opened
  | failed
deriving DecidableEq

/-- The `open` retry loop of `getentropy`: an EINTR failure jumps back to
`start` and opens again; any other failure goes to `nodevrandom`;
`none` means the oracle gave no further outcome. -/
def openLoop : List OpenResult → Option OpenOut
  | [] => none
  | o :: rest =>
    match o with
    | OpenResult.failure e =>
        if e = EINTRv then openLoop rest else some OpenOut.failed
    | OpenResult.success => some OpenOut.opened

/-- Result of the read loop of `getentropy`: either the buffer was filled
up to `len`, or a read failed with an errno other than EAGAIN/EINTR
(the code then closes the descriptor and goes to `nodevrandom`),
carrying the partially written buffer. -/
inductive LoopOut where
  | filled (buf : List Nat)
  | failed (buf : List Nat)
deriving DecidableEq

/-- The read loop `for (i = 0; i < len; )` of `getentropy`: each
iteration asks for the remaining `wanted = len - i` bytes; a failure
with EAGAIN or EINTR retries, any other failure exits to
`nodevrandom`; a success writes the returned bytes at position `i` and
advances `i` by their count. `none` means the oracle gave no further
outcome while the loop still needed bytes. -/
def readLoop (buf : List Nat) (i : Nat) : List ReadResult → Option LoopOut
  | [] =>
    if buf.length ≤ i then some (LoopOut.filled buf) else none
  | r :: rest =>
    if buf.length ≤ i then some (LoopOut.filled buf)
    else
      match r with
      | ReadResult.failure e =>
          if e = EAGAINv ∨ e = EINTRv then readLoop buf i rest
          else some (LoopOut.failed buf)
      | ReadResult.success data =>
          let wanted : Nat := buf.length - i
          let chunk : List Nat := data.take wanted
          readLoop (buf.take i ++ chunk ++ buf.drop (i + chunk.length))
            (i + chunk.length) rest

/-- The observable outcome of a `getentropy` call: its return value, the
errno it leaves behind, and the buffer contents. -/
structure EntropyResult where
  ret : Int
  errno : Int
  buf : List Nat
deriving DecidableEq

/-- `getentropy` from getentropy_nacl.c, as a function of the device
environment, the errno at entry (saved into `save_errno`), and the
caller's buffer (its length is `len`). Per the source: an `open`
failure other than EINTR, a failed or non-character-device `fstat`, a
hard `read` failure, and an all-zero filled buffer all jump to
`nodevrandom`, which sets errno to E IO and returns -1; only a filled
buffer passing `gotdata` restores the saved errno and returns 0.
`none` means the environment oracle gave no outcome for a system call
the code would have kept waiting on. -/
def getentropy (env : Env) (errno0 : Int) (buf : List Nat) :
    Option EntropyResult :=
  match openLoop env.opens with
  | none => none
  | some OpenOut.failed => some ⟨-1, EIOv, buf⟩
  | some OpenOut.opened =>
    match env.devSane with
    | false => some ⟨-1, EIOv, buf⟩
    | true =>
      match readLoop buf 0 env.reads with
      | none => none
      | some (LoopOut.failed pbuf) => some ⟨-1, EIOv, pbuf⟩
      | some (LoopOut.filled fbuf) =>
        if gotdata fbuf = 0 then some ⟨0, errno0, fbuf⟩
        else some ⟨-1, EIOv, fbuf⟩

theorem sint32OfBits_bitsOfSint32 (n : Int) (h1 : -(2 ^ 31) ≤ n)
    (h2 : n < 2 ^ 31) : sint32OfBits (bitsOfSint32 n) = n := by
  simp only [sint32OfBits, bitsOfSint32]
  norm_num at h1 h2 ⊢
  split_ifs with hlt <;> omega

theorem sint64OfBits_bitsOfSint64 (n : Int) (h1 : -(2 ^ 63) ≤ n)
    (h2 : n < 2 ^ 63) : sint64OfBits (bitsOfSint64 n) = n := by
  simp only [sint64OfBits, bitsOfSint64]
  norm_num at h1 h2 ⊢
  split_ifs with hlt <;> omega

/-- Claim C1: for every reference kind among String, Object, Array,
Dictionary and ArrayBuffer and every 64-bit identity `id`, decoding the
Variant produced by the kind-specific encoder with `id_from_var` returns
`id`, and the produced Variant's Kind tag is the corresponding kind; as
all five decode through the same `as_id` load, `id_from_var` reads the
same identity payload whichever of the five reference Kinds the Variant
carries. -/
theorem reference_id_round_trip (id : Int) (h1 : -(2 ^ 63) ≤ id)
    (h2 : id < 2 ^ 63) :
    (id_from_var (string_id_to_var id) = id ∧
      (string_id_to_var id).type = PP_VarType.PP_VARTYPE_STRING) ∧
    (id_from_var (object_id_to_var id) = id ∧
      (object_id_to_var id).type = PP_VarType.PP_VARTYPE_OBJECT) ∧
    (id_from_var (array_id_to_var id) = id ∧
      (array_id_to_var id).type = PP_VarType.PP_VARTYPE_ARRAY) ∧
    (id_from_var (dictionary_id_to_var id) = id ∧
      (dictionary_id_to_var id).type = PP_VarType.PP_VARTYPE_DICTIONARY) ∧
    (id_from_var (array_buffer_id_to_var id) = id ∧
      (array_buffer_id_to_var id).type = PP_VarType.PP_VARTYPE_ARRAY_BUFFER) := by
  have hr := sint64OfBits_bitsOfSint64 id h1 h2
  exact ⟨⟨hr, rfl⟩, ⟨hr, rfl⟩, ⟨hr, rfl⟩, ⟨hr, rfl⟩, ⟨hr, rfl⟩⟩

theorem reference_id_round_trip_witness :
    ((-(2 ^ 63) ≤ (42 : Int)) ∧ ((42 : Int) < 2 ^ 63)) ∧
    ((id_from_var (string_id_to_var 42) = 42 ∧
      (string_id_to_var 42).type = PP_VarType.PP_VARTYPE_STRING) ∧
    (id_from_var (object_id_to_var 42) = 42 ∧
      (object_id_to_var 42).type = PP_VarType.PP_VARTYPE_OBJECT) ∧
    (id_from_var (array_id_to_var 42) = 42 ∧
      (array_id_to_var 42).type = PP_VarType.PP_VARTYPE_ARRAY) ∧
    (id_from_var (dictionary_id_to_var 42) = 42 ∧
      (dictionary_id_to_var 42).type = PP_VarType.PP_VARTYPE_DICTIONARY) ∧
    (id_from_var (array_buffer_id_to_var 42) = 42 ∧
      (array_buffer_id_to_var 42).type = PP_VarType.PP_VARTYPE_ARRAY_BUFFER)) :=
  ⟨⟨by norm_num, by norm_num⟩,
    reference_id_round_trip 42 (by norm_num) (by norm_num)⟩

/-- Claim C2: for every boolean `x`, `bool_from_var (bool_to_var x) = x`;
for every 32-bit signed integer `n`, `i32_from_var (i32_to_var n) = n`;
and for every double `d` (embedded as its 64-bit pattern),
`f64_from_var (f64_to_var d) = d`. -/
theorem scalar_round_trip (x : Bool) (n : Int) (d : Nat)
    (hn1 : -(2 ^ 31) ≤ n) (hn2 : n < 2 ^ 31) (hd : d < 2 ^ 64) :
    bool_from_var (bool_to_var x) = x ∧
    i32_from_var (i32_to_var n) = n ∧
    f64_from_var (f64_to_var d) = d := by
  refine ⟨by cases x <;> decide, sint32OfBits_bitsOfSint32 n hn1 hn2, ?_⟩
  simp only [f64_from_var, f64_to_var, PP_MakeDouble, PP_VarValue.as_double]
  norm_num at hd ⊢
  omega

theorem scalar_round_trip_witness :
    ((-(2 ^ 31) ≤ (-5 : Int)) ∧ ((-5 : Int) < 2 ^ 31) ∧ (7 : Nat) < 2 ^ 64) ∧
    (bool_from_var (bool_to_var true) = true ∧
    i32_from_var (i32_to_var (-5)) = -5 ∧
    f64_from_var (f64_to_var 7) = 7) :=
  ⟨⟨by norm_num, by norm_num, by norm_num⟩,
    scalar_round_trip true (-5) 7 (by norm_num) (by norm_num) (by norm_num)⟩

/-- Claim C3: every Variant produced by an encoder operation —
`make_undefined_var`, `make_null_var`, `bool_to_var`, `i32_to_var`,
`f64_to_var` and the five reference encoders — has its 32-bit reserved
padding field equal to zero. -/
theorem encoders_zero_padding (x : Bool) (n : Int) (d : Nat) (id : Int) :
    make_undefined_var.padding = 0 ∧
    make_null_var.padding = 0 ∧
    (bool_to_var x).padding = 0 ∧
    (i32_to_var n).padding = 0 ∧
    (f64_to_var d).padding = 0 ∧
    (string_id_to_var id).padding = 0 ∧
    (object_id_to_var id).padding = 0 ∧
    (array_id_to_var id).padding = 0 ∧
    (dictionary_id_to_var id).padding = 0 ∧
    (array_buffer_id_to_var id).padding = 0 :=
  ⟨rfl, rfl, rfl, rfl, rfl, rfl, rfl, rfl, rfl, rfl⟩

/-- Claim C4: `make_completion_callback f ctx` performs no invocation of
`f`, and `run_completion_callback` applied to the resulting callback
with a result code `r` performs exactly one invocation, of `f` with
arguments `(ctx, r)`, and nothing else. -/
theorem callback_once (f : PP_CompletionCallback_Func) (ctx : Nat) (r : Int) :
    (make_completion_callback f ctx).2 = [] ∧
    run_completion_callback (make_completion_callback f ctx).1 r =
      [⟨f, ctx, r⟩] :=
  ⟨rfl, rfl⟩

/-- Claim C6: the Variant operations and callback construction are total
functions of their arguments — each is a total computable Lean function
here — and the decoders perform no validation beyond the documented
precondition on Kind: each decoder's result depends only on the payload
union, never on the Kind tag or the reserved field, so no failure path
exists for any input Variant. -/
theorem decoders_no_validation (v w : PP_Var) (h : v.value = w.value) :
    bool_from_var v = bool_from_var w ∧
    i32_from_var v = i32_from_var w ∧
    f64_from_var v = f64_from_var w ∧
    id_from_var v = id_from_var w := by
  refine ⟨?_, ?_, ?_, ?_⟩ <;>
    simp [bool_from_var, i32_from_var, f64_from_var, id_from_var,
      PP_VarValue.as_bool, PP_VarValue.as_int, PP_VarValue.as_double,
      PP_VarValue.as_id, h]

theorem decoders_no_validation_witness :
    ((⟨PP_VarType.PP_VARTYPE_BOOL, 0, ⟨1⟩⟩ : PP_Var).value =
      (⟨PP_VarType.PP_VARTYPE_STRING, 7, ⟨1⟩⟩ : PP_Var).value) ∧
    (bool_from_var ⟨PP_VarType.PP_VARTYPE_BOOL, 0, ⟨1⟩⟩ =
      bool_from_var ⟨PP_VarType.PP_VARTYPE_STRING, 7, ⟨1⟩⟩ ∧
    i32_from_var ⟨PP_VarType.PP_VARTYPE_BOOL, 0, ⟨1⟩⟩ =
      i32_from_var ⟨PP_VarType.PP_VARTYPE_STRING, 7, ⟨1⟩⟩ ∧
    f64_from_var ⟨PP_VarType.PP_VARTYPE_BOOL, 0, ⟨1⟩⟩ =
      f64_from_var ⟨PP_VarType.PP_VARTYPE_STRING, 7, ⟨1⟩⟩ ∧
    id_from_var ⟨PP_VarType.PP_VARTYPE_BOOL, 0, ⟨1⟩⟩ =
      id_from_var ⟨PP_VarType.PP_VARTYPE_STRING, 7, ⟨1⟩⟩) :=
  ⟨rfl, decoders_no_validation _ _ rfl⟩

/-- Claim C7: `make_undefined_var` and `make_null_var` produce Variants
whose Kind tags differ from each other, and each differs from the Kind
tag of every Variant produced by the scalar encoders and the five
reference encoders. -/
theorem undefined_null_kinds_distinct (x : Bool) (n : Int) (d : Nat)
    (id : Int) :
    make_undefined_var.type ≠ make_null_var.type ∧
    (make_undefined_var.type ≠ (bool_to_var x).type ∧
      make_undefined_var.type ≠ (i32_to_var n).type ∧
      make_undefined_var.type ≠ (f64_to_var d).type ∧
      make_undefined_var.type ≠ (string_id_to_var id).type ∧
      make_undefined_var.type ≠ (object_id_to_var id).type ∧
      make_undefined_var.type ≠ (array_id_to_var id).type ∧
      make_undefined_var.type ≠ (dictionary_id_to_var id).type ∧
      make_undefined_var.type ≠ (array_buffer_id_to_var id).type) ∧
    (make_null_var.type ≠ (bool_to_var x).type ∧
      make_null_var.type ≠ (i32_to_var n).type ∧
      make_null_var.type ≠ (f64_to_var d).type ∧
      make_null_var.type ≠ (string_id_to_var id).type ∧
      make_null_var.type ≠ (object_id_to_var id).type ∧
      make_null_var.type ≠ (array_id_to_var id).type ∧
      make_null_var.type ≠ (dictionary_id_to_var id).type ∧
      make_null_var.type ≠ (array_buffer_id_to_var id).type) := by
  refine ⟨?_, ⟨?_, ?_, ?_, ?_, ?_, ?_, ?_, ?_⟩,
    ⟨?_, ?_, ?_, ?_, ?_, ?_, ?_, ?_⟩⟩ <;>
    simp [make_undefined_var, make_null_var, PP_MakeUndefined, PP_MakeNull,
      bool_to_var, i32_to_var, f64_to_var, PP_MakeBool, PP_MakeInt32,
      PP_MakeDouble, string_id_to_var, object_id_to_var, array_id_to_var,
      dictionary_id_to_var, array_buffer_id_to_var]

/-- Claim C8: the standard-output accessor `stdout_file` of
src/src/helper.cpp returns the standard-input stream rather than the
standard-output stream, while `stderr_file` returns the standard-error
stream. -/
theorem stdout_file_returns_stdin :
    stdout_file = CFileStream.standardIn ∧
    stdout_file ≠ CFileStream.standardOut ∧
    stderr_file = CFileStream.standardErr := by
  decide

/-- Claim C9: every function name defined in both helper translation
units computes equal results on all inputs in the two files
src/src/helper.cpp (namespace `srchelper` here) and
src/src/libhelper/helper.cpp (top level here). -/
theorem helper_units_agree :
    (∀ f u, make_completion_callback f u =
      srchelper.make_completion_callback f u) ∧
    (∀ cb c, run_completion_callback cb c =
      srchelper.run_completion_callback cb c) ∧
    make_undefined_var = srchelper.make_undefined_var ∧
    make_null_var = srchelper.make_null_var ∧
    (∀ x, bool_to_var x = srchelper.bool_to_var x) ∧
    (∀ v, bool_from_var v = srchelper.bool_from_var v) ∧
    (∀ n, i32_to_var n = srchelper.i32_to_var n) ∧
    (∀ v, i32_from_var v = srchelper.i32_from_var v) ∧
    (∀ d, f64_to_var d = srchelper.f64_to_var d) ∧
    (∀ v, f64_from_var v = srchelper.f64_from_var v) ∧
    (∀ id, string_id_to_var id = srchelper.string_id_to_var id) ∧
    (∀ id, object_id_to_var id = srchelper.object_id_to_var id) ∧
    (∀ id, array_id_to_var id = srchelper.array_id_to_var id) ∧
    (∀ id, dictionary_id_to_var id = srchelper.dictionary_id_to_var id) ∧
    (∀ id, array_buffer_id_to_var id =
      srchelper.array_buffer_id_to_var id) ∧
    (∀ v, id_from_var v = srchelper.id_from_var v) :=
  ⟨fun _ _ => rfl, fun _ _ => rfl, rfl, rfl, fun _ => rfl, fun _ => rfl,
    fun _ => rfl, fun _ => rfl, fun _ => rfl, fun _ => rfl, fun _ => rfl,
    fun _ => rfl, fun _ => rfl, fun _ => rfl, fun _ => rfl, fun _ => rfl⟩

theorem foldl_or_all_zero (l : List Nat) (a : Nat) (ha : a = 0)
    (hall : ∀ b ∈ l, b % 256 = 0) :
    l.foldl (fun x b => x ||| b % 256) a = 0 := by
  induction l generalizing a with
  | nil => simpa using ha
  | cons x xs ih =>
    rw [List.foldl_cons]
    apply ih
    · have hx : x % 256 = 0 := hall x (by simp)
      simp [ha, hx]
    · intro b hb
      exact hall b (by simp [hb])

theorem gotdata_of_all_zero (l : List Nat) (hall : ∀ b ∈ l, b % 256 = 0) :
    gotdata l = -1 := by
  unfold gotdata
  rw [foldl_or_all_zero l 0 rfl hall]
  simp

/-- Claim C5: `getentropy` returns success only if the buffer it filled
is not all-zero, and each failure cause forces a failure return with no
substitution: when the device cannot be opened (the open loop fails),
when the character-special-device sanity check fails, when a read fails
hard, and when the filled bytes are all zero, the call returns exactly
`⟨-1, E IO, buffer⟩` — no pseudo-random fallback path exists that could
alter the buffer or return success. -/
theorem getentropy_fail_closed (env : Env) (errno0 : Int)
    (buf : List Nat) :
    (∀ r : EntropyResult, getentropy env errno0 buf = some r →
      (r.ret = 0 → ¬ ∀ b ∈ r.buf, b % 256 = 0) ∧
      (r.ret ≠ 0 → r.ret = -1)) ∧
    (openLoop env.opens = some OpenOut.failed →
      getentropy env errno0 buf = some ⟨-1, EIOv, buf⟩) ∧
    (env.devSane = false → openLoop env.opens = some OpenOut.opened →
      getentropy env errno0 buf = some ⟨-1, EIOv, buf⟩) ∧
    (∀ pbuf, openLoop env.opens = some OpenOut.opened →
      env.devSane = true →
      readLoop buf 0 env.reads = some (LoopOut.failed pbuf) →
      getentropy env errno0 buf = some ⟨-1, EIOv, pbuf⟩) ∧
    (∀ fbuf, openLoop env.opens = some OpenOut.opened →
      env.devSane = true →
      readLoop buf 0 env.reads = some (LoopOut.filled fbuf) →
      (∀ b ∈ fbuf, b % 256 = 0) →
      getentropy env errno0 buf = some ⟨-1, EIOv, fbuf⟩) := by
  refine ⟨?_, ?_, ?_, ?_, ?_⟩
  · intro r h
    unfold getentropy at h
    rcases hopen : openLoop env.opens with _ | oo
    · rw [hopen] at h
      exact Option.noConfusion h
    · rw [hopen] at h
      cases oo with
      | failed =>
        injection h with h2
        subst h2
        exact ⟨fun h0 => by dsimp at h0; omega, fun _ => rfl⟩
      | opened =>
        cases hd : env.devSane with
        | false =>
          rw [hd] at h
          injection h with h2
          subst h2
          exact ⟨fun h0 => by dsimp at h0; omega, fun _ => rfl⟩
        | true =>
          rw [hd] at h
          dsimp only at h
          rcases hread : readLoop buf 0 env.reads with _ | lo
          · rw [hread] at h
            exact Option.noConfusion h
          · rw [hread] at h
            cases lo with
            | failed pbuf =>
              injection h with h2
              subst h2
              exact ⟨fun h0 => by dsimp at h0; omega, fun _ => rfl⟩
            | filled fbuf =>
              dsimp only at h
              by_cases hg : gotdata fbuf = 0
              · rw [if_pos hg] at h
                injection h with h2
                subst h2
                refine ⟨fun _ hall => ?_, fun h0 => absurd rfl h0⟩
                have hz := gotdata_of_all_zero fbuf hall
                rw [hg] at hz
                exact absurd hz (by decide)
              · rw [if_neg hg] at h
                injection h with h2
                subst h2
                exact ⟨fun h0 => by dsimp at h0; omega, fun _ => rfl⟩
  · intro hopen
    unfold getentropy
    rw [hopen]
  · intro hd hopen
    unfold getentropy
    rw [hopen]
    dsimp only
    rw [hd]
  · intro pbuf hopen hd hread
    unfold getentropy
    rw [hopen]
    dsimp only
    rw [hd]
    dsimp only
    rw [hread]
  · intro fbuf hopen hd hread hall
    unfold getentropy
    rw [hopen]
    dsimp only
    rw [hd]
    dsimp only
    rw [hread]
    dsimp only
    have hz := gotdata_of_all_zero fbuf hall
    rw [if_neg (by rw [hz]; decide)]

theorem getentropy_fail_closed_witness :
    (getentropy ⟨[OpenResult.success], true, [ReadResult.success [9, 0, 0]]⟩
      42 [0, 0, 0] = some ⟨0, 42, [9, 0, 0]⟩ ∧
    ((⟨0, 42, [9, 0, 0]⟩ : EntropyResult).ret = 0 →
      ¬ ∀ b ∈ (⟨0, 42, [9, 0, 0]⟩ : EntropyResult).buf, b % 256 = 0)) ∧
    (openLoop [OpenResult.failure 13] = some OpenOut.failed ∧
    getentropy ⟨[OpenResult.failure 13], true, []⟩ 7 [0] =
      some ⟨-1, EIOv, [0]⟩) ∧
    getentropy ⟨[OpenResult.success], false, []⟩ 7 [0] =
      some ⟨-1, EIOv, [0]⟩ ∧
    getentropy ⟨[OpenResult.success], true, [ReadResult.failure 9]⟩ 7 [0] =
      some ⟨-1, EIOv, [0]⟩ ∧
    getentropy ⟨[OpenResult.success], true, [ReadResult.success [0]]⟩ 7 [0] =
      some ⟨-1, EIOv, [0]⟩ :=
  ⟨⟨by decide,
    ((getentropy_fail_closed ⟨[OpenResult.success], true,
      [ReadResult.success [9, 0, 0]]⟩ 42 [0, 0, 0]).1
      ⟨0, 42, [9, 0, 0]⟩ (by decide)).1⟩,
  ⟨by decide,
    (getentropy_fail_closed ⟨[OpenResult.failure 13], true, []⟩ 7
      [0]).2.1 (by decide)⟩,
  (getentropy_fail_closed ⟨[OpenResult.success], false, []⟩ 7
    [0]).2.2.1 rfl (by decide),
  (getentropy_fail_closed ⟨[OpenResult.success], true,
    [ReadResult.failure 9]⟩ 7 [0]).2.2.2.1 [0] (by decide) rfl (by decide),
  (getentropy_fail_closed ⟨[OpenResult.success], true,
    [ReadResult.success [0]]⟩ 7 [0]).2.2.2.2 [0] (by decide) rfl
    (by decide) (by decide)⟩

/-- Claim C10: on every successful return of `getentropy`, errno is
restored to the value it held at entry; on every failing return, the
return value is -1 and errno is set to E IO, regardless of whether the
failure came from a missing or invalid device, a failed read, or an
all-zero buffer — so the failure causes are indistinguishable to the
caller through the return interface. -/
theorem getentropy_errno_discipline (env : Env) (errno0 : Int)
    (buf : List Nat) (r : EntropyResult)
    (h : getentropy env errno0 buf = some r) :
    (r.ret = 0 → r.errno = errno0) ∧
    (r.ret ≠ 0 → r.ret = -1 ∧ r.errno = EIOv) := by
  unfold getentropy at h
  rcases hopen : openLoop env.opens with _ | oo
  · rw [hopen] at h
    exact Option.noConfusion h
  · rw [hopen] at h
    cases oo with
    | failed =>
      injection h with h2
      subst h2
      exact ⟨fun h0 => by dsimp at h0; omega, fun _ => ⟨rfl, rfl⟩⟩
    | opened =>
      cases hd : env.devSane with
      | false =>
        rw [hd] at h
        injection h with h2
        subst h2
        exact ⟨fun h0 => by dsimp at h0; omega, fun _ => ⟨rfl, rfl⟩⟩
      | true =>
        rw [hd] at h
        dsimp only at h
        rcases hread : readLoop buf 0 env.reads with _ | lo
        · rw [hread] at h
          exact Option.noConfusion h
        · rw [hread] at h
          cases lo with
          | failed pbuf =>
            injection h with h2
            subst h2
            exact ⟨fun h0 => by dsimp at h0; omega, fun _ => ⟨rfl, rfl⟩⟩
          | filled fbuf =>
            dsimp only at h
            by_cases hg : gotdata fbuf = 0
            · rw [if_pos hg] at h
              injection h with h2
              subst h2
              exact ⟨fun _ => rfl, fun h0 => absurd rfl h0⟩
            · rw [if_neg hg] at h
              injection h with h2
              subst h2
              exact ⟨fun h0 => by dsimp at h0; omega, fun _ => ⟨rfl, rfl⟩⟩

theorem getentropy_errno_discipline_witness :
    getentropy ⟨[OpenResult.failure 13], true, []⟩ 7 [0] =
      some ⟨-1, EIOv, [0]⟩ ∧
    (((⟨-1, EIOv, [0]⟩ : EntropyResult).ret = 0 →
      (⟨-1, EIOv, [0]⟩ : EntropyResult).errno = 7) ∧
    ((⟨-1, EIOv, [0]⟩ : EntropyResult).ret ≠ 0 →
      (⟨-1, EIOv, [0]⟩ : EntropyResult).ret = -1 ∧
      (⟨-1, EIOv, [0]⟩ : EntropyResult).errno = EIOv)) :=
  ⟨by decide,
    getentropy_errno_discipline ⟨[OpenResult.failure 13], true, []⟩ 7 [0]
      ⟨-1, EIOv, [0]⟩ (by decide)⟩
